import Mathlib

/-!
Verification of the time-series-forecaster frontend core against its
specification.  The definitions below are a shallow embedding of the two
components that carry the nontrivial logic:

* `ColumnSelector.js` — the parameter validation effect (`validate`), the
  submit handler (`handleRunForecast`), and the single-in-flight request
  discipline of the Run Forecast button;
* `ForecastResults.js` — the results transformer that turns a backend
  response into chart datasets, a table, and a per-best-model note.

JS numbers are modelled as `Rat`; dates are kept as their source strings
(`new Date` is a rendering adaptation); JS objects are association lists in
insertion order; optional / possibly-absent fields are `Option`.
-/

namespace Forecaster

/-! ## ColumnSelector: selection state and the validation effect -/

/-- The `selectedColumns` state object: keys "Date Column", "Value Column",
"Aggregation Column (Optional)" in insertion order. -/
structure Selections where
  dateColumn : String
  valueColumn : String
  aggColumn : String
deriving DecidableEq, Repr

/-- The `forecastPeriods` state: `handlePeriodsChange` stores `parseInt`'s
integer when it parses, and otherwise the raw input string (`NaN` branch). -/
inductive PeriodsValue where
  | intVal (n : Int)
  | strVal (s : String)
deriving DecidableEq, Repr

/-- The check `Number.isInteger(forecastPeriods) && forecastPeriods > 0`: a string is
never an integer, an integer passes iff positive. -/
def periodsIsValid : PeriodsValue → Bool
  | .intVal n => n > 0
  | .strVal _ => false

/-- The two outputs the validation effect writes: `errorMessage` and
`canRunForecast`. -/
structure Verdict where
  errorMessage : String
  canRunForecast : Bool
deriving DecidableEq, Repr

/-- The trailing check of the validation effect (line 70):
`Object.values(selectedColumns).some(col => col !== '' && !columnHeaders.includes(col))`,
the values in key insertion order. -/
def hasUnknownColumn (sc : Selections) (columnHeaders : List String) : Bool :=
  [sc.dateColumn, sc.valueColumn, sc.aggColumn].any
    (fun col => col != "" && !(columnHeaders.contains col))

/-- The validation `useEffect` of `ColumnSelector.js` (lines 37-75), as the
function from the current inputs to the final values of `errorMessage` and
`canRunForecast` after the effect runs.  The trailing unknown-column check
(lines 70-73) runs after the main branch and overwrites whatever the main
branch set, exactly as the last `setErrorMessage` / `setCanRunForecast`
calls win in the source. -/
def validate (sc : Selections) (selectedFrequency : String)
    (forecastPeriods : PeriodsValue) (columnHeaders : List String) : Verdict :=
  let dateSelected := sc.dateColumn != ""
  let valueSelected := sc.valueColumn != ""
  let frequencySelected := selectedFrequency != ""
  let periodsValid := periodsIsValid forecastPeriods
  let base : Verdict :=
    if dateSelected && valueSelected && frequencySelected && periodsValid then
      if sc.dateColumn == sc.valueColumn then
        ⟨"Date and Value columns cannot be the same.", false⟩
      else
        ⟨"", true⟩
    else if !periodsValid then
      ⟨"Please enter a positive integer for forecast periods.", false⟩
    else if !frequencySelected then
      ⟨"Please select a forecasting frequency.", false⟩
    else
      ⟨"", false⟩
  if hasUnknownColumn sc columnHeaders then
    ⟨"One or more selected columns are not in the original data.", false⟩
  else
    base

/-! ## ColumnSelector: the submit handler -/

/-- Opaque stand-in for the uploaded `File` object. -/
structure FileData where
  name : String
deriving DecidableEq, Repr

/-- What `handleRunForecast` does on a given invocation: return early on
invalid selections, abort with the missing-file message, or issue the
`axios.post` with the four form fields. -/
inductive SubmitAction where
  | invalidSelections (msg : String)
  | missingFile (msg : String)
  | postForecast (file : FileData) (selectedColumns : Selections)
      (selectedFrequency : String) (forecastPeriods : String)
deriving DecidableEq, Repr

/-- The serialization `forecastPeriods.toString()`. -/
def periodsToString : PeriodsValue → String
  | .intVal n => toString n
  | .strVal s => s

/-- The handler `handleRunForecast` of `ColumnSelector.js` (lines 103-143), up to the
point where the network request is (or is not) issued. -/
def handleRunForecast (canRunForecast : Bool) (file : Option FileData)
    (sc : Selections) (selectedFrequency : String)
    (forecastPeriods : PeriodsValue) : SubmitAction :=
  if !canRunForecast then
    .invalidSelections "Please complete valid selections and periods."
  else
    match file with
    | none => .missingFile "Error: Original file data is missing."
    | some f => .postForecast f sc selectedFrequency (periodsToString forecastPeriods)

/-- Whether an invocation outcome issued the network request. -/
def issuesNetworkCall : SubmitAction → Bool
  | .postForecast _ _ _ _ => true
  | _ => false

/-! ## ColumnSelector: event model of the in-flight request discipline -/

/-- The component state relevant to the concurrency invariant:
`canRunForecast` and `isLoadingForecast` are the React state variables,
`file` is the prop, and `pendingRequests` counts forecast requests that have
been issued but whose response or failure has not yet been processed. -/
structure UIState where
  canRunForecast : Bool
  isLoadingForecast : Bool
  file : Option FileData
  pendingRequests : Nat
deriving DecidableEq, Repr

/-- The Run Forecast button attribute
`disabled={!canRunForecast || isLoadingForecast}`. -/
def buttonDisabled (s : UIState) : Bool :=
  !s.canRunForecast || s.isLoadingForecast

/-- Discrete input events: a click on the (enabled) Run Forecast button, the
settlement of an outstanding request (the `finally` block), and any input
change together with the revalidation effect it triggers. -/
inductive UIEvent where
  | clickRunForecast
  | forecastSettled
  | inputChanged (canRun : Bool) (file : Option FileData)

/-- One event step.  `none` means the event cannot occur in that state: the
DOM delivers no click on a disabled button, and a settlement needs an
outstanding request.  A click with a present file runs `handleRunForecast`
up to the `await`: `setIsLoadingForecast(true)` then the request is issued;
with an absent file the handler resets the loading flag and issues nothing.
Settlement runs the `finally` block. -/
def stepUI (s : UIState) : UIEvent → Option UIState
  | .clickRunForecast =>
    if buttonDisabled s then
      none
    else
      match s.file with
      | none => some { s with isLoadingForecast := false }
      | some _ => some { s with isLoadingForecast := true,
                                pendingRequests := s.pendingRequests + 1 }
  | .forecastSettled =>
    if s.pendingRequests = 0 then
      none
    else
      some { s with isLoadingForecast := false,
                    pendingRequests := s.pendingRequests - 1 }
  | .inputChanged canRun file =>
    some { s with canRunForecast := canRun, file := file }

/-- Initial component state: `useState(false)` for both flags, no request
outstanding, the file prop arbitrary. -/
def initialUIState (file : Option FileData) : UIState :=
  { canRunForecast := false, isLoadingForecast := false,
    file := file, pendingRequests := 0 }

/-- States reachable from an initial state by event steps. -/
inductive ReachableUI : UIState → Prop
  | init (file : Option FileData) : ReachableUI (initialUIState file)
  | step {s s' : UIState} {e : UIEvent} :
      ReachableUI s → stepUI s e = some s' → ReachableUI s'

/-! ## ForecastResults: response data model -/

/-- One element of `historicalData`: `{Date, Value}`. -/
structure HistPoint where
  Date : String
  Value : Rat
deriving DecidableEq, Repr

/-- One element of a model's `forecast_data`:
`{Date, ForecastValue, LowerBound, UpperBound}`. -/
structure ForecastPoint where
  Date : String
  ForecastValue : Rat
  LowerBound : Rat
  UpperBound : Rat
deriving DecidableEq, Repr

/-- One value of the `modelResults` mapping.  `forecast_data = none` models a
missing or non-array field (the source tests `Array.isArray`);
`error = some s` a present `error` field. -/
structure ModelResult where
  forecast_data : Option (List ForecastPoint)
  evaluation_rmse : Option Rat
  error : Option String
deriving DecidableEq, Repr

/-- JS truthiness of an optional string field: absent and the empty string
are falsy, any other string truthy. -/
def truthyStr : Option String → Bool
  | none => false
  | some s => s != ""

/-- The `historicalData` field as the shape check at line 89 discriminates
it: `invalid` covers a missing, falsy, or non-array value (all rejected by
`!results.historicalData || !Array.isArray(results.historicalData)`),
`arr` a JS array of points. -/
inductive HistoricalField where
  | invalid
  | arr (points : List HistPoint)
deriving DecidableEq, Repr

/-- The `modelResults` field as the shape check discriminates it: `invalid`
covers a missing or falsy value or one whose `typeof` is not `"object"`
(strings, numbers, booleans, functions); `map` is a plain object in key
insertion order; `arrayOf` is a JS array, which passes the check because
`typeof [] === "object"`. -/
inductive ModelsField where
  | invalid
  | map (entries : List (String × ModelResult))
  | arrayOf (entries : List ModelResult)
deriving DecidableEq, Repr

/-- The key/value pairs `Object.keys` and indexing see: an object's own
entries; for an array, the index strings `"0"`, `"1"`, … paired with the
elements. -/
def ModelsField.entriesOf : ModelsField → List (String × ModelResult)
  | .invalid => []
  | .map entries => entries
  | .arrayOf entries => entries.enum.map (fun p => (toString p.1, p.2))

/-- The `results` prop of `ForecastResults` (the parsed 2xx response body). -/
structure Results where
  historicalData : HistoricalField
  modelResults : ModelsField
  bestMethod : String
deriving DecidableEq, Repr

/-! ## ForecastResults: chart dataset construction -/

/-- One Chart.js dataset as the component builds it.  `fill` is `none` for
`fill: false`, `some 1` for `fill: '+1'` (fill to the next dataset) and
`some (-1)` for `fill: '-1'` (fill to the previous one).  The x values keep
the source `Date` strings (`new Date` is a rendering adaptation). -/
structure ChartDataset where
  label : String
  data : List (String × Rat)
  borderColor : String
  backgroundColor : String
  borderWidth : Nat
  pointRadius : Nat
  borderDash : List Nat
  fill : Option Int
  tension : Rat
deriving DecidableEq, Repr

/-- The `modelColors` table (lines 118-123). -/
def modelColors : String → Option String
  | "ARIMA" => some "rgba(75, 192, 192, 1)"
  | "ETS" => some "rgba(255, 159, 64, 1)"
  | "SMA" => some "rgba(153, 102, 255, 1)"
  | _ => none

/-- The historical dataset push (lines 101-115): one dataset when
`historicalData` is non-empty, none otherwise. -/
def historicalDatasets (historicalData : List HistPoint) : List ChartDataset :=
  if historicalData.length > 0 then
    [{ label := "Historical Data",
       data := historicalData.map (fun item => (item.Date, item.Value)),
       borderColor := "rgba(54, 162, 235, 1)",
       backgroundColor := "rgba(54, 162, 235, 0.2)",
       borderWidth := 2, pointRadius := 3, borderDash := [],
       fill := none, tension := 1/10 }]
  else
    []

/-- Indexing `modelResults[methodName]` (first binding wins; JS object keys are
unique anyway). -/
def lookupModel (entries : List (String × ModelResult)) (name : String) :
    Option ModelResult :=
  match entries with
  | [] => none
  | (k, v) :: rest => if k = name then some v else lookupModel rest name

/-- The default JS `Array.prototype.sort()` comparator on strings compares
code-unit sequences lexicographically; on the ASCII model names this is
code-point order on the character lists. -/
def charListLe : List Char → List Char → Bool
  | [], _ => true
  | _ :: _, [] => false
  | a :: as, b :: bs =>
    if a.toNat < b.toNat then true
    else if b.toNat < a.toNat then false
    else charListLe as bs

/-- String comparison as JS `sort()` performs it. -/
def strLe (a b : String) : Bool :=
  charListLe a.data b.data

/-- The list `Object.keys(modelResults).sort()` (line 126): the key list in
lexicographic order.  JS string `replace` with a string pattern replaces the
first occurrence; all `replace` calls below are on the fixed color strings,
in which the pattern occurs exactly once, so Lean's replace-all coincides. -/
def sortedModelNames (entries : List (String × ModelResult)) : List String :=
  List.insertionSort (fun a b => strLe a b = true) (entries.map Prod.fst)

/-- The body of the `sortedModelNames.forEach` loop (lines 129-190): the
datasets one model contributes, in push order.  A missing binding, a missing
or non-array `forecast_data`, a truthy `error`, or an empty point list
contribute nothing; otherwise the forecast line, followed — for the best
method only — by the lower-bound and upper-bound datasets. -/
def modelDatasets (bestMethod methodName : String)
    (modelData : Option ModelResult) : List ChartDataset :=
  match modelData with
  | none => []
  | some md =>
    match md.forecast_data with
    | none => []
    | some forecastPoints =>
      if truthyStr md.error then
        []
      else if forecastPoints.length > 0 then
        let lowerBounds := forecastPoints.map (fun item => item.LowerBound)
        let upperBound := forecastPoints.map (fun item => item.UpperBound)
        let isBestMethod := methodName = bestMethod
        let color := (modelColors methodName).getD "rgba(128, 128, 128, 1)"
        let line : ChartDataset :=
          { label := methodName ++ " Forecast" ++
              (if isBestMethod then " (Best)" else ""),
            data := forecastPoints.map (fun item => (item.Date, item.ForecastValue)),
            borderColor := color,
            backgroundColor := color.replace "1)" "0.2)",
            borderWidth := if isBestMethod then 3 else 2,
            pointRadius := if isBestMethod then 4 else 2,
            borderDash := [], fill := none, tension := 1/10 }
        if isBestMethod ∧ lowerBounds.length = forecastPoints.length ∧
            upperBound.length = forecastPoints.length then
          let ciColor := color.replace "1)" "0.5)"
          [line,
           { label := methodName ++ " Lower Bound (95% CI)",
             data := forecastPoints.map (fun item => (item.Date, item.LowerBound)),
             borderColor := ciColor,
             backgroundColor := ciColor.replace "0.5)" "0.2)",
             borderWidth := 1, borderDash := [5, 5], pointRadius := 0,
             fill := some 1, tension := 1/10 },
           { label := methodName ++ " Upper Bound (95% CI)",
             data := forecastPoints.map (fun item => (item.Date, item.UpperBound)),
             borderColor := ciColor,
             backgroundColor := ciColor.replace "0.5)" "0.2)",
             borderWidth := 1, borderDash := [5, 5], pointRadius := 0,
             fill := some (-1), tension := 1/10 }]
        else
          [line]
      else
        []

/-- The full `datasets` array: the historical dataset, then each model's
contribution in sorted-name order. -/
def allDatasets (historicalData : List HistPoint)
    (entries : List (String × ModelResult)) (bestMethod : String) :
    List ChartDataset :=
  historicalDatasets historicalData ++
    (sortedModelNames entries).flatMap
      (fun methodName => modelDatasets bestMethod methodName (lookupModel entries methodName))

/-! ## ForecastResults: table and best-model note -/

/-- Digit character: code point 48 is the zero digit. -/
def digitChar (d : Nat) : Char :=
  Char.ofNat (48 + d)

/-- JS `Number.prototype.toFixed(2)` on an exact rational: for a negative
argument a minus sign is prepended and the absolute value is formatted; the
value is scaled by 100 and rounded to the nearest integer, ties away from
zero after the sign split (ECMA: ties pick the larger candidate). -/
def toFixed2 (q : Rat) : String :=
  let sign := if q < 0 then "-" else ""
  let x := if q < 0 then -q else q
  let n := (Int.floor (x * 100 + 1/2)).toNat
  sign ++ toString (n / 100) ++ "." ++
    String.mk [digitChar (n / 10 % 10), digitChar (n % 10)]

/-- The expression `modelResults[bestMethod]?.forecast_data || []` (line 198): the best
model's forecast points, defaulting to the empty list when the binding or
the field is absent (an empty array is truthy and kept as is, which is also
empty). -/
def bestMethodData (entries : List (String × ModelResult)) (best : String) :
    List ForecastPoint :=
  match lookupModel entries best with
  | none => []
  | some md => md.forecast_data.getD []

/-- One rendered table row (lines 247-254): the date as is, the three
numeric fields through `toFixed(2)`. -/
structure TableRow where
  date : String
  forecastValue : String
  lowerBound : String
  upperBound : String
deriving DecidableEq, Repr

/-- The rows of the best-method table, one per forecast point. -/
def tableRows (entries : List (String × ModelResult)) (best : String) :
    List TableRow :=
  (bestMethodData entries best).map
    (fun item => ⟨item.Date, toFixed2 item.ForecastValue,
                  toFixed2 item.LowerBound, toFixed2 item.UpperBound⟩)

/-- What is rendered below the chart (lines 232-267): the table when the
best-method data is non-empty; otherwise the error note when
`modelResults[bestMethod]?.error` is truthy, else the no-data note. -/
inductive BestModelNote where
  | table
  | errorNote (msg : String)
  | noData (msg : String)
deriving DecidableEq, Repr

/-- The note selection logic. -/
def bestModelNote (entries : List (String × ModelResult)) (best : String) :
    BestModelNote :=
  if (bestMethodData entries best).length = 0 then
    if truthyStr ((lookupModel entries best).bind (fun md => md.error)) then
      .errorNote ("Could not display forecast data for the best method (" ++
        best ++ ") due to an error: " ++
        (((lookupModel entries best).bind (fun md => md.error)).getD ""))
    else
      .noData ("No forecast data available for the best method (" ++ best ++ ").")
  else
    .table

/-! ## ForecastResults: the component -/

/-- The component's rendering outcome: either the single error indicator of
line 90, or the chart datasets, best-method name, table rows, and note. -/
inductive RenderResult where
  | invalidStructure (msg : String)
  | rendered (datasets : List ChartDataset) (best : String)
      (rows : List TableRow) (note : BestModelNote)
deriving DecidableEq, Repr

/-- The component `ForecastResults` (lines 87-272).  `none` models a missing or falsy
`results` prop.  The shape check at line 89 rejects the whole render; on
success the datasets, table, and note are computed as above. -/
def ForecastResults (results : Option Results) : RenderResult :=
  match results with
  | none => .invalidStructure "Error: Invalid forecast results data structure received."
  | some r =>
    match r.historicalData with
    | .invalid => .invalidStructure "Error: Invalid forecast results data structure received."
    | .arr historicalData =>
      match r.modelResults with
      | .invalid => .invalidStructure "Error: Invalid forecast results data structure received."
      | mf =>
        let entries := mf.entriesOf
        .rendered (allDatasets historicalData entries r.bestMethod)
          r.bestMethod (tableRows entries r.bestMethod)
          (bestModelNote entries r.bestMethod)

/-- The chart series an outcome carries: none on the error indicator. -/
def renderedSeries : RenderResult → List ChartDataset
  | .invalidStructure _ => []
  | .rendered datasets _ _ _ => datasets

/-- A confidence-band dataset: exactly those pushed with a fill reference. -/
def isBandSeries (d : ChartDataset) : Bool :=
  d.fill.isSome

/-- A (non-band) forecast-line dataset for the named model. -/
def isForecastSeriesFor (name : String) (d : ChartDataset) : Bool :=
  !d.fill.isSome &&
    (d.label == name ++ " Forecast" || d.label == name ++ " Forecast (Best)")

/-- Any dataset the named model could have contributed. -/
def mentionsModel (name : String) (d : ChartDataset) : Bool :=
  d.label == name ++ " Forecast" || d.label == name ++ " Forecast (Best)" ||
    d.label == name ++ " Lower Bound (95% CI)" ||
    d.label == name ++ " Upper Bound (95% CI)"

/-- The forecast-line dataset the loop pushes for the best method (the
`isBestMethod` branch of lines 150-159), as a function of the method name
and its forecast points. -/
def bestLineDataset (best : String) (fps : List ForecastPoint) : ChartDataset :=
  { label := best ++ " Forecast (Best)",
    data := fps.map (fun item => (item.Date, item.ForecastValue)),
    borderColor := (modelColors best).getD "rgba(128, 128, 128, 1)",
    backgroundColor := ((modelColors best).getD "rgba(128, 128, 128, 1)").replace "1)" "0.2)",
    borderWidth := 3, pointRadius := 4, borderDash := [],
    fill := none, tension := 1/10 }

/-- The lower-bound dataset pushed for the best method (lines 164-174). -/
def bestLowerDataset (best : String) (fps : List ForecastPoint) : ChartDataset :=
  { label := best ++ " Lower Bound (95% CI)",
    data := fps.map (fun item => (item.Date, item.LowerBound)),
    borderColor := ((modelColors best).getD "rgba(128, 128, 128, 1)").replace "1)" "0.5)",
    backgroundColor := (((modelColors best).getD "rgba(128, 128, 128, 1)").replace "1)" "0.5)").replace "0.5)" "0.2)",
    borderWidth := 1, pointRadius := 0, borderDash := [5, 5],
    fill := some 1, tension := 1/10 }

/-- The upper-bound dataset pushed for the best method (lines 175-185). -/
def bestUpperDataset (best : String) (fps : List ForecastPoint) : ChartDataset :=
  { label := best ++ " Upper Bound (95% CI)",
    data := fps.map (fun item => (item.Date, item.UpperBound)),
    borderColor := ((modelColors best).getD "rgba(128, 128, 128, 1)").replace "1)" "0.5)",
    backgroundColor := (((modelColors best).getD "rgba(128, 128, 128, 1)").replace "1)" "0.5)").replace "0.5)" "0.2)",
    borderWidth := 1, pointRadius := 0, borderDash := [5, 5],
    fill := some (-1), tension := 1/10 }

/-- A string with exactly two digits after its decimal point. -/
def twoDecimalString (s : String) : Prop :=
  ∃ a d1 d2, s = a ++ "." ++ String.mk [d1, d2] ∧
    d1.isDigit = true ∧ d2.isDigit = true

/-- A sample successful model result with one forecast point, used by
concrete instances. -/
def sampleModel : ModelResult :=
  ⟨some [⟨"2024-01-01", 1, 0, 2⟩], none, none⟩

/-- A sample successful model result with six forecast points, matching the
scenario of a six-period forecast. -/
def arimaSixPoints : List ForecastPoint :=
  [⟨"2024-01-31", 10, 8, 12⟩, ⟨"2024-02-29", 11, 9, 13⟩,
   ⟨"2024-03-31", 12, 10, 14⟩, ⟨"2024-04-30", 13, 11, 15⟩,
   ⟨"2024-05-31", 14, 12, 16⟩, ⟨"2024-06-30", 15, 13, 17⟩]

/-- The six-point result as a model entry. -/
def arimaSix : ModelResult :=
  ⟨some arimaSixPoints, some (1/2), none⟩

/-! ## Transformer helper lemmas -/

/-- The sort comparator is total. -/
theorem charListLe_total : ∀ as bs,
    charListLe as bs = true ∨ charListLe bs as = true := by
  intro as
  induction as with
  | nil => intro bs; left; rfl
  | cons a as ih =>
    intro bs
    cases bs with
    | nil => right; rfl
    | cons b bs =>
      simp only [charListLe]
      by_cases hab : a.toNat < b.toNat
      · left
        rw [if_pos hab]
      · by_cases hba : b.toNat < a.toNat
        · right
          rw [if_pos hba]
        · rcases ih bs with h | h
          · left
            rw [if_neg hab, if_neg hba]
            exact h
          · right
            rw [if_neg hba, if_neg hab]
            exact h

/-- The sort comparator is transitive. -/
theorem charListLe_trans : ∀ as bs cs, charListLe as bs = true →
    charListLe bs cs = true → charListLe as cs = true := by
  intro as
  induction as with
  | nil => intro bs cs _ _; rfl
  | cons a as ih =>
    intro bs cs h1 h2
    cases bs with
    | nil => simp [charListLe] at h1
    | cons b bs =>
      cases cs with
      | nil => simp [charListLe] at h2
      | cons c cs =>
        simp only [charListLe] at h1 h2 ⊢
        by_cases hab : a.toNat < b.toNat
        · by_cases hbc : b.toNat < c.toNat
          · rw [if_pos (show a.toNat < c.toNat by omega)]
          · by_cases hcb : c.toNat < b.toNat
            · rw [if_neg hbc, if_pos hcb] at h2
              cases h2
            · rw [if_pos (show a.toNat < c.toNat by omega)]
        · by_cases hba : b.toNat < a.toNat
          · rw [if_neg hab, if_pos hba] at h1
            cases h1
          · rw [if_neg hab, if_neg hba] at h1
            by_cases hbc : b.toNat < c.toNat
            · rw [if_pos (show a.toNat < c.toNat by omega)]
            · by_cases hcb : c.toNat < b.toNat
              · rw [if_neg hbc, if_pos hcb] at h2
                cases h2
              · rw [if_neg hbc, if_neg hcb] at h2
                rw [if_neg (show ¬ a.toNat < c.toNat by omega),
                  if_neg (show ¬ c.toNat < a.toNat by omega)]
                exact ih bs cs h1 h2

/-- The sort comparator is antisymmetric. -/
theorem charListLe_antisymm : ∀ as bs, charListLe as bs = true →
    charListLe bs as = true → as = bs := by
  intro as
  induction as with
  | nil =>
    intro bs _ h2
    cases bs with
    | nil => rfl
    | cons b bs => simp [charListLe] at h2
  | cons a as ih =>
    intro bs h1 h2
    cases bs with
    | nil => simp [charListLe] at h1
    | cons b bs =>
      simp only [charListLe] at h1 h2
      by_cases hab : a.toNat < b.toNat
      · rw [if_neg (show ¬ b.toNat < a.toNat by omega), if_pos hab] at h2
        cases h2
      · by_cases hba : b.toNat < a.toNat
        · rw [if_neg hab, if_pos hba] at h1
          cases h1
        · rw [if_neg hab, if_neg hba] at h1
          rw [if_neg hba, if_neg hab] at h2
          have hn : a.toNat = b.toNat := by omega
          have hchar : a = b := Char.eq_of_val_eq (UInt32.toNat.inj hn)
          rw [hchar, ih bs h1 h2]

instance : IsTotal String (fun a b => strLe a b = true) :=
  ⟨fun a b => charListLe_total a.data b.data⟩

instance : IsTrans String (fun a b => strLe a b = true) :=
  ⟨fun a b c => charListLe_trans a.data b.data c.data⟩

instance : IsAntisymm String (fun a b => strLe a b = true) :=
  ⟨fun a b h1 h2 => String.ext (charListLe_antisymm a.data b.data h1 h2)⟩

/-- Two appends with suffixes ending in different characters are never
equal, whatever the prefixes. -/
theorem append_ne_append_of_getLast_ne (s1 s2 : String) (c1 c2 : Char)
    (h1 : s1.data.getLast? = some c1) (h2 : s2.data.getLast? = some c2)
    (hc : c1 ≠ c2) : ∀ n m : String, n ++ s1 ≠ m ++ s2 := by
  intro n m h
  have hd : (n ++ s1).data = (m ++ s2).data := congrArg String.data h
  rw [String.data_append, String.data_append] at hd
  have hg := congrArg List.getLast? hd
  rw [List.getLast?_append, List.getLast?_append, h1, h2] at hg
  simp at hg
  exact hc hg

/-- Appending a common suffix is injective in the prefix. -/
theorem append_cancel_suffix {s n m : String} (h : n ++ s = m ++ s) : n = m := by
  have hd : (n ++ s).data = (m ++ s).data := congrArg String.data h
  rw [String.data_append, String.data_append] at hd
  exact String.ext (List.append_cancel_right hd)

/-- Indexing `modelResults[k]` returns the unique binding of `k` in a
duplicate-free-keys entry list. -/
theorem lookupModel_eq_of_mem {entries : List (String × ModelResult)}
    {k : String} {v : ModelResult}
    (hnd : (entries.map Prod.fst).Nodup) (hmem : (k, v) ∈ entries) :
    lookupModel entries k = some v := by
  induction entries with
  | nil => cases hmem
  | cons x rest ih =>
    rcases List.mem_cons.mp hmem with hx | hx
    · rw [← hx]
      simp [lookupModel]
    · simp only [lookupModel]
      split
      · rename_i heq
        exfalso
        have hk : k ∈ rest.map Prod.fst :=
          List.mem_map.mpr ⟨(k, v), hx, rfl⟩
        rw [List.map_cons, List.nodup_cons] at hnd
        exact hnd.1 (heq ▸ hk)
      · exact ih (by rw [List.map_cons, List.nodup_cons] at hnd; exact hnd.2) hx

/-- Object indexing is invariant under reordering the entries of a
duplicate-free-keys mapping. -/
theorem lookupModel_perm {entries entries' : List (String × ModelResult)}
    (hp : entries.Perm entries') :
    ∀ name, (entries.map Prod.fst).Nodup →
      lookupModel entries name = lookupModel entries' name := by
  induction hp with
  | nil => intro name _; rfl
  | cons x _ ih =>
    intro name hnd
    simp only [lookupModel]
    split
    · rfl
    · exact ih name (by rw [List.map_cons, List.nodup_cons] at hnd; exact hnd.2)
  | swap x y l =>
    intro name hnd
    rw [List.map_cons, List.map_cons, List.nodup_cons] at hnd
    have hxy : y.1 ≠ x.1 := by
      intro hcontra
      exact hnd.1 (by simp [hcontra])
    simp only [lookupModel]
    by_cases hy : y.1 = name
    · have hxn : x.1 ≠ name := fun hx => hxy (by rw [hy, ← hx])
      rw [if_pos hy, if_neg hxn, if_pos hy]
    · by_cases hx : x.1 = name
      · rw [if_neg hy, if_pos hx, if_pos hx]
      · rw [if_neg hy, if_neg hx, if_neg hx, if_neg hy]
  | trans hp1 _ ih1 ih2 =>
    intro name hnd
    exact (ih1 name hnd).trans
      (ih2 name (((hp1.map Prod.fst).nodup_iff).mp hnd))

/-- Sorting is invariant under reordering the entries. -/
theorem sortedModelNames_perm {entries entries' : List (String × ModelResult)}
    (hp : entries.Perm entries') :
    sortedModelNames entries = sortedModelNames entries' :=
  List.eq_of_perm_of_sorted
    ((List.perm_insertionSort _ _).trans
      ((hp.map Prod.fst).trans (List.perm_insertionSort _ _).symm))
    (List.sorted_insertionSort _ _) (List.sorted_insertionSort _ _)

/-- The sorted name list is a permutation of the key list. -/
theorem sortedModelNames_is_perm (entries : List (String × ModelResult)) :
    (sortedModelNames entries).Perm (entries.map Prod.fst) :=
  List.perm_insertionSort _ _

/-- A model other than the best contributes only fill-free datasets labelled
with its own name and the plain `" Forecast"` suffix. -/
theorem modelDatasets_not_best {best n : String} {md : Option ModelResult}
    (hn : n ≠ best) :
    ∀ d ∈ modelDatasets best n md,
      d.fill = none ∧ d.label = n ++ " Forecast" := by
  intro d hd
  cases md with
  | none => cases hd
  | some m =>
    cases hfd : m.forecast_data with
    | none => simp only [modelDatasets, hfd] at hd; cases hd
    | some fps =>
      simp only [modelDatasets, hfd] at hd
      split at hd
      · cases hd
      · split at hd
        · split at hd
          · rename_i hcond
            exact absurd hcond.1 hn
          · rcases List.mem_singleton.mp hd with rfl
            exact ⟨rfl, by simp [hn]⟩
        · cases hd

/-- A model with a truthy `error` contributes no dataset. -/
theorem modelDatasets_of_error {best n : String} {md : ModelResult}
    (he : truthyStr md.error = true) :
    modelDatasets best n (some md) = [] := by
  cases hfd : md.forecast_data <;> simp [modelDatasets, hfd, he]

/-- The best method with usable non-empty forecast data contributes exactly
its forecast line, then the lower-bound dataset, then the upper-bound
dataset. -/
theorem modelDatasets_best {best : String} {md : ModelResult}
    {fps : List ForecastPoint}
    (hfd : md.forecast_data = some fps) (herr : truthyStr md.error = false)
    (hne : fps ≠ []) :
    modelDatasets best best (some md) =
      [bestLineDataset best fps, bestLowerDataset best fps,
        bestUpperDataset best fps] := by
  have hlen : fps.length > 0 := List.length_pos.mpr hne
  have hlab : best ++ " Forecast" ++ " (Best)" = best ++ " Forecast (Best)" := by
    rw [String.append_assoc]
    congr 1
  simp [modelDatasets, hfd, herr, hlen, bestLineDataset, bestLowerDataset,
    bestUpperDataset, hlab]

/-- Every historical dataset has the fixed label and no fill reference. -/
theorem historicalDatasets_members {h : List HistPoint} :
    ∀ d ∈ historicalDatasets h,
      d.label = "Historical Data" ∧ d.fill = none := by
  intro d hd
  rw [historicalDatasets] at hd
  split at hd
  · rcases List.mem_singleton.mp hd with rfl
    exact ⟨rfl, rfl⟩
  · cases hd

/-- Splitting the dataset list at the best method: when the best method is
bound in the entries with usable non-empty forecast data, the full dataset
list is the historical part, the models sorted before it, its own three
datasets in order, and the models sorted after it; the best name occurs in
neither side. -/
theorem allDatasets_decomp {h : List HistPoint}
    {entries : List (String × ModelResult)} {best : String}
    {md : ModelResult} {fps : List ForecastPoint}
    (hnd : (entries.map Prod.fst).Nodup)
    (hmem : (best, md) ∈ entries)
    (hfd : md.forecast_data = some fps) (herr : truthyStr md.error = false)
    (hne : fps ≠ []) :
    ∃ ns1 ns2 : List String,
      sortedModelNames entries = ns1 ++ best :: ns2 ∧
      best ∉ ns1 ∧ best ∉ ns2 ∧ ns1 ⊆ entries.map Prod.fst ∧
      ns2 ⊆ entries.map Prod.fst ∧
      allDatasets h entries best =
        historicalDatasets h ++
          (ns1.flatMap (fun n => modelDatasets best n (lookupModel entries n)) ++
            ([bestLineDataset best fps, bestLowerDataset best fps,
              bestUpperDataset best fps] ++
              ns2.flatMap (fun n => modelDatasets best n (lookupModel entries n)))) := by
  have hmemname : best ∈ sortedModelNames entries := by
    rw [sortedModelNames, List.mem_insertionSort]
    exact List.mem_map.mpr ⟨(best, md), hmem, rfl⟩
  obtain ⟨ns1, ns2, hsplit⟩ := List.append_of_mem hmemname
  have hndsort : (sortedModelNames entries).Nodup :=
    ((sortedModelNames_is_perm entries).nodup_iff).mpr hnd
  rw [hsplit] at hndsort
  rw [List.nodup_append] at hndsort
  have h1 : best ∉ ns1 := fun hin => hndsort.2.2 hin (List.mem_cons_self _ _)
  have h2 : best ∉ ns2 := (List.nodup_cons.mp hndsort.2.1).1
  have hsub : ∀ n, n ∈ ns1 ∨ n ∈ ns2 → n ∈ entries.map Prod.fst := by
    intro n hin
    have : n ∈ sortedModelNames entries := by
      rw [hsplit]
      rcases hin with hin | hin
      · exact List.mem_append_left _ hin
      · exact List.mem_append_right _ (List.mem_cons_of_mem _ hin)
    exact (List.mem_insertionSort _).mp this
  refine ⟨ns1, ns2, hsplit, h1, h2,
    fun n hn => hsub n (Or.inl hn), fun n hn => hsub n (Or.inr hn), ?_⟩
  rw [allDatasets, hsplit, List.flatMap_append, List.flatMap_cons]
  rw [lookupModel_eq_of_mem hnd hmem]
  rw [modelDatasets_best hfd herr hne]

/-- Digit characters are digits. -/
theorem digitChar_isDigit {d : Nat} (hd : d < 10) :
    (digitChar d).isDigit = true := by
  interval_cases d <;> decide

/-- Rendering through `toFixed(2)` always yields exactly two digits after a decimal point. -/
theorem toFixed2_twoDecimal (q : Rat) : twoDecimalString (toFixed2 q) := by
  refine ⟨(if q < 0 then "-" else "") ++
      toString ((Int.floor ((if q < 0 then -q else q) * 100 + 1/2)).toNat / 100),
    digitChar ((Int.floor ((if q < 0 then -q else q) * 100 + 1/2)).toNat / 10 % 10),
    digitChar ((Int.floor ((if q < 0 then -q else q) * 100 + 1/2)).toNat % 10),
    ?_, ?_, ?_⟩
  · rw [toFixed2, String.append_assoc]
  · exact digitChar_isDigit (Nat.mod_lt _ (by norm_num))
  · exact digitChar_isDigit (Nat.mod_lt _ (by norm_num))

end Forecaster

namespace Forecaster

/-! ## Claims about the validator -/

/-- Claim C4, counterexample: with horizon 0 (rule 1 fails) and the selected
Date column "X" absent from the (empty) known headers (rule 4 fails), the
reported message is the unknown-column one, not the horizon one as the
claimed precedence requires. -/
theorem validate_precedence_counterexample :
    validate ⟨"X", "", ""⟩ "Daily" (.intVal 0) [] =
      ⟨"One or more selected columns are not in the original data.", false⟩ ∧
    "One or more selected columns are not in the original data." ≠
      "Please enter a positive integer for forecast periods." := by
  constructor
  · rfl
  · decide

/-- Claim C4 (amended): the unknown-column rule is checked last and its
write wins, so it takes precedence over every other message; when it does
not fire, the first failing rule among horizon, completeness, and
distinctness (in that order) determines the message, the completeness rule
reporting no message. -/
theorem validate_precedence (sc : Selections) (freq : String)
    (periods : PeriodsValue) (headers : List String) :
    (hasUnknownColumn sc headers = true →
      validate sc freq periods headers =
        ⟨"One or more selected columns are not in the original data.", false⟩) ∧
    (hasUnknownColumn sc headers = false → periodsIsValid periods = false →
      validate sc freq periods headers =
        ⟨"Please enter a positive integer for forecast periods.", false⟩) ∧
    (hasUnknownColumn sc headers = false → periodsIsValid periods = true →
      freq ≠ "" → (sc.dateColumn = "" ∨ sc.valueColumn = "") →
      validate sc freq periods headers = ⟨"", false⟩) ∧
    (hasUnknownColumn sc headers = false → periodsIsValid periods = true →
      freq ≠ "" → sc.dateColumn ≠ "" → sc.valueColumn ≠ "" →
      sc.dateColumn = sc.valueColumn →
      validate sc freq periods headers =
        ⟨"Date and Value columns cannot be the same.", false⟩) := by
  refine ⟨?_, ?_, ?_, ?_⟩
  · intro h
    simp [validate, h]
  · intro h hp
    simp [validate, h, hp]
  · intro h hp hf hdv
    rcases hdv with hd | hv
    · simp [validate, h, hp, hf, hd]
    · simp [validate, h, hp, hf, hv]
  · intro h hp hf hd hv heq
    simp [validate, h, hp, hf, hd, hv, heq]

/-- Claim C4, witness instantiating the amended theorem. -/
theorem validate_precedence_witness :
    validate ⟨"X", "", ""⟩ "Daily" (.intVal 3) ["X", "Y"] = ⟨"", false⟩ :=
  (validate_precedence ⟨"X", "", ""⟩ "Daily" (.intVal 3) ["X", "Y"]).2.2.1
    (by decide) (by decide) (by decide) (Or.inr rfl)

/-- Claim C5, counterexample: Date and Value both select "A" (non-empty and
equal), but with horizon 0 the reported message is the horizon one, not
"cannot be the same", so the message is not independent of the horizon. -/
theorem validate_same_column_counterexample :
    validate ⟨"A", "A", ""⟩ "Daily" (.intVal 0) ["A"] =
      ⟨"Please enter a positive integer for forecast periods.", false⟩ ∧
    "Please enter a positive integer for forecast periods." ≠
      "Date and Value columns cannot be the same." := by
  constructor
  · rfl
  · decide

/-- Claim C5 (amended): whenever Date and Value are non-empty and equal the
verdict is invalid, whatever the other fields; the "cannot be the same"
message is reported provided the horizon is a positive integer, the
frequency is non-empty, and no unknown column is selected (otherwise those
rules' messages win). -/
theorem validate_same_column (sc : Selections) (freq : String)
    (periods : PeriodsValue) (headers : List String)
    (heq : sc.dateColumn = sc.valueColumn) (hne : sc.dateColumn ≠ "") :
    (validate sc freq periods headers).canRunForecast = false ∧
    (periodsIsValid periods = true → freq ≠ "" →
      hasUnknownColumn sc headers = false →
      validate sc freq periods headers =
        ⟨"Date and Value columns cannot be the same.", false⟩) := by
  constructor
  · simp only [validate]
    have hbeq : (sc.dateColumn == sc.valueColumn) = true := by simp [heq]
    split
    · rfl
    · split
      · simp [hbeq]
      · split
        · rfl
        · split <;> rfl
  · intro hp hf hu
    have hv : sc.valueColumn ≠ "" := heq ▸ hne
    simp [validate, hp, hf, hu, hne, hv, heq]

/-- Claim C5, witness instantiating the amended theorem. -/
theorem validate_same_column_witness :
    (validate ⟨"A", "A", ""⟩ "Daily" (.intVal 7) ["A"]).canRunForecast = false ∧
    validate ⟨"A", "A", ""⟩ "Daily" (.intVal 7) ["A"] =
      ⟨"Date and Value columns cannot be the same.", false⟩ := by
  have h := validate_same_column ⟨"A", "A", ""⟩ "Daily" (.intVal 7) ["A"] rfl (by decide)
  exact ⟨h.1, h.2 (by decide) (by decide) (by decide)⟩

/-! ## Claims about the submit handler -/

/-- Claim C2: when validation reports invalid or the file reference is
absent, `handleRunForecast` issues no network call; when validation is
valid and the file is absent, it fails with the missing-file message. -/
theorem submit_no_network_when_invalid_or_missing_file
    (sc : Selections) (freq : String) (periods : PeriodsValue)
    (headers : List String) (file : Option FileData)
    (h : (validate sc freq periods headers).canRunForecast = false ∨ file = none) :
    issuesNetworkCall (handleRunForecast
        (validate sc freq periods headers).canRunForecast file sc freq periods) = false ∧
    ((validate sc freq periods headers).canRunForecast = true → file = none →
      handleRunForecast (validate sc freq periods headers).canRunForecast
        file sc freq periods =
        .missingFile "Error: Original file data is missing.") := by
  constructor
  · rcases h with h | h
    · simp [handleRunForecast, h, issuesNetworkCall]
    · subst h
      cases hc : (validate sc freq periods headers).canRunForecast <;>
        simp [handleRunForecast, issuesNetworkCall]
  · intro hc hf
    subst hf
    simp [handleRunForecast, hc]

/-- Claim C2, witness: with nothing selected validation is invalid and no
call is issued; the theorem is applied at that concrete input. -/
theorem submit_no_network_witness :
    issuesNetworkCall (handleRunForecast
        (validate ⟨"", "", ""⟩ "Daily" (.intVal 12) []).canRunForecast
        none ⟨"", "", ""⟩ "Daily" (.intVal 12)) = false :=
  (submit_no_network_when_invalid_or_missing_file
    ⟨"", "", ""⟩ "Daily" (.intVal 12) [] none (Or.inr rfl)).1

/-! ## Claim about the in-flight discipline -/

/-- Claim C3: at every reachable state at most one forecast request is
outstanding, and while one is outstanding the loading flag is set and the
Run Forecast button is disabled, so a second submit cannot start. -/
theorem at_most_one_inflight {s : UIState} (h : ReachableUI s) :
    s.pendingRequests ≤ 1 ∧
      (s.pendingRequests = 1 →
        s.isLoadingForecast = true ∧ buttonDisabled s = true) := by
  induction h with
  | init file => simp [initialUIState]
  | @step s s' e _ hs ih =>
    cases e with
    | clickRunForecast =>
      simp only [stepUI] at hs
      split at hs
      · exact absurd hs (by simp)
      · rename_i hd
        have hd' : buttonDisabled s = false := by
          cases hb : buttonDisabled s
          · rfl
          · exact absurd hb hd
        rw [buttonDisabled] at hd'
        simp only [Bool.or_eq_false_iff, Bool.not_eq_false'] at hd'
        have hload : s.isLoadingForecast = false := hd'.2
        have hle := ih.1
        have hzero : s.pendingRequests = 0 := by
          by_contra hnz
          have h2 : s.pendingRequests = 1 := by omega
          have hl := (ih.2 h2).1
          rw [hload] at hl
          cases hl
        cases hf : s.file with
        | none =>
          rw [hf] at hs
          cases hs
          refine ⟨?_, fun hone => ?_⟩
          · show s.pendingRequests ≤ 1
            omega
          · exfalso
            have hone' : s.pendingRequests = 1 := hone
            omega
        | some f =>
          rw [hf] at hs
          cases hs
          refine ⟨?_, fun _ => ⟨rfl, ?_⟩⟩
          · show s.pendingRequests + 1 ≤ 1
            omega
          · simp [buttonDisabled]
    | forecastSettled =>
      simp only [stepUI] at hs
      split at hs
      · exact absurd hs (by simp)
      · rename_i hnz
        cases hs
        have hle := ih.1
        refine ⟨?_, fun hone => ?_⟩
        · show s.pendingRequests - 1 ≤ 1
          omega
        · exfalso
          have hone' : s.pendingRequests - 1 = 1 := hone
          omega
    | inputChanged canRun file =>
      simp only [stepUI] at hs
      cases hs
      refine ⟨ih.1, fun hone => ?_⟩
      have hone' : s.pendingRequests = 1 := hone
      rcases ih.2 hone' with ⟨hl, _⟩
      exact ⟨hl, by simp [buttonDisabled, hl]⟩

/-- Claim C3, witness: the theorem applied to the initial state. -/
theorem at_most_one_inflight_witness :
    (initialUIState none).pendingRequests ≤ 1 ∧
      ((initialUIState none).pendingRequests = 1 →
        (initialUIState none).isLoadingForecast = true ∧
          buttonDisabled (initialUIState none) = true) :=
  at_most_one_inflight (ReachableUI.init none)

/-! ## Claims about the transformer shape check -/

/-- Claim C8, counterexample: an array is not a name-to-result mapping, yet
`typeof [] === "object"`, so a response whose `modelResults` is an array
passes the shape check and renders (here with one historical series) instead
of producing the error indicator. -/
theorem shape_check_counterexample :
    ForecastResults (some ⟨.arr [⟨"2020-01-01", 1⟩], .arrayOf [], "X"⟩) ≠
      .invalidStructure "Error: Invalid forecast results data structure received." ∧
    renderedSeries
      (ForecastResults (some ⟨.arr [⟨"2020-01-01", 1⟩], .arrayOf [], "X"⟩)) ≠ [] := by
  constructor
  · decide
  · decide

/-- Claim C8 (amended): a missing or non-array `historicalData`, or a
missing, falsy, or non-object-typed `modelResults`, yields the single error
indicator and zero chart series (as does a missing response); an array
value for `modelResults`, although not a mapping, passes the `typeof` check
and is rendered exactly as the mapping from index strings to its
elements. -/
theorem invalid_shape_error :
    (∀ r : Results, r.historicalData = .invalid ∨ r.modelResults = .invalid →
      ForecastResults (some r) =
        .invalidStructure "Error: Invalid forecast results data structure received." ∧
      renderedSeries (ForecastResults (some r)) = []) ∧
    ForecastResults none =
      .invalidStructure "Error: Invalid forecast results data structure received." ∧
    ∀ (hist : List HistPoint) (l : List ModelResult) (best : String),
      ForecastResults (some ⟨.arr hist, .arrayOf l, best⟩) =
        ForecastResults (some ⟨.arr hist,
          .map (l.enum.map (fun p => (toString p.1, p.2))), best⟩) := by
  refine ⟨?_, rfl, ?_⟩
  · rintro ⟨hd, mr, bm⟩ h
    rcases h with h | h
    · cases h
      exact ⟨rfl, rfl⟩
    · cases h
      cases hd
      · exact ⟨rfl, rfl⟩
      · exact ⟨rfl, rfl⟩
  · intro hist l best
    rfl

/-- Claim C8, witness instantiating the amended theorem. -/
theorem invalid_shape_error_witness :
    ForecastResults (some ⟨.invalid, .map [], "X"⟩) =
      .invalidStructure "Error: Invalid forecast results data structure received." :=
  (invalid_shape_error.1 ⟨.invalid, .map [], "X"⟩ (Or.inl rfl)).1

/-! ## Claims about the best-model table and note -/

/-- Claim C9: when the best model is bound with a non-empty forecast
sequence, the rendered table is built from exactly that sequence, one row
per point with the date and the three numeric fields through `toFixed(2)`,
every numeric cell carrying exactly two decimal places. -/
theorem table_from_best_model (h : List HistPoint)
    (entries : List (String × ModelResult)) (best : String)
    (md : ModelResult) (fps : List ForecastPoint)
    (hlk : lookupModel entries best = some md)
    (hfd : md.forecast_data = some fps) (hne : fps ≠ []) :
    ForecastResults (some ⟨.arr h, .map entries, best⟩) =
      .rendered (allDatasets h entries best) best
        (fps.map (fun item => ⟨item.Date, toFixed2 item.ForecastValue,
          toFixed2 item.LowerBound, toFixed2 item.UpperBound⟩)) .table ∧
    (tableRows entries best).length = fps.length ∧
    ∀ row ∈ tableRows entries best,
      twoDecimalString row.forecastValue ∧ twoDecimalString row.lowerBound ∧
        twoDecimalString row.upperBound := by
  have hbmd : bestMethodData entries best = fps := by
    rw [bestMethodData, hlk]
    show md.forecast_data.getD [] = fps
    rw [hfd]
    rfl
  have hrows : tableRows entries best =
      fps.map (fun item => ⟨item.Date, toFixed2 item.ForecastValue,
        toFixed2 item.LowerBound, toFixed2 item.UpperBound⟩) := by
    rw [tableRows, hbmd]
  have hnote : bestModelNote entries best = .table := by
    rw [bestModelNote, hbmd]
    rw [if_neg (by simpa using hne)]
  refine ⟨?_, ?_, ?_⟩
  · show RenderResult.rendered (allDatasets h entries best) best
      (tableRows entries best) (bestModelNote entries best) = _
    rw [hrows, hnote]
  · rw [hrows, List.length_map]
  · intro row hrow
    rw [hrows] at hrow
    rcases List.mem_map.mp hrow with ⟨item, _, rfl⟩
    exact ⟨toFixed2_twoDecimal _, toFixed2_twoDecimal _, toFixed2_twoDecimal _⟩

/-- Claim C9, witness: a success response with best method "ARIMA" and six
forecast points yields a table of exactly six rows. -/
theorem table_from_best_model_witness :
    (tableRows [("ARIMA", arimaSix)] "ARIMA").length = 6 := by
  have h := table_from_best_model [] [("ARIMA", arimaSix)] "ARIMA"
    arimaSix arimaSixPoints (by rfl) (by rfl) (by decide)
  rw [h.2.1]
  rfl

/-- Claim C10, counterexample: when the best model is bound but lacks a
forecast sequence and carries a failure reason, the failure-reason note is
shown, not the "no data, no error" note the claim predicts. -/
theorem best_model_missing_counterexample :
    ForecastResults (some ⟨.arr [], .map [("M", ⟨none, none, some "x"⟩)], "M"⟩) =
      .rendered [] "M" []
        (.errorNote "Could not display forecast data for the best method (M) due to an error: x") ∧
    BestModelNote.errorNote
        "Could not display forecast data for the best method (M) due to an error: x" ≠
      BestModelNote.noData "No forecast data available for the best method (M)." := by
  constructor
  · rfl
  · decide

/-- Claim C10 (amended): when the best name is unbound, or bound without a
forecast sequence, the transformer still renders: the best forecast data
defaults to empty, the table is empty, no band series is emitted, and —
when no failure reason exists for that name — the "no data, no error" note
is shown (a bound failure reason yields the failure note instead). -/
theorem best_model_missing_defaults (h : List HistPoint)
    (entries : List (String × ModelResult)) (best : String)
    (hmiss : lookupModel entries best = none ∨
      ∃ md, lookupModel entries best = some md ∧ md.forecast_data = none) :
    bestMethodData entries best = [] ∧
    tableRows entries best = [] ∧
    (allDatasets h entries best).countP isBandSeries = 0 ∧
    (truthyStr ((lookupModel entries best).bind (fun md => md.error)) = false →
      bestModelNote entries best =
        .noData ("No forecast data available for the best method (" ++ best ++ ").")) ∧
    ForecastResults (some ⟨.arr h, .map entries, best⟩) =
      .rendered (allDatasets h entries best) best (tableRows entries best)
        (bestModelNote entries best) := by
  have hbmd : bestMethodData entries best = [] := by
    rcases hmiss with hmiss | ⟨md, hlk, hfd⟩
    · rw [bestMethodData, hmiss]
    · rw [bestMethodData, hlk]
      show md.forecast_data.getD [] = ([] : List ForecastPoint)
      rw [hfd]
      rfl
  have hbandless : ∀ n, (modelDatasets best n (lookupModel entries n)).countP isBandSeries = 0 := by
    intro n
    by_cases hn : n = best
    · subst hn
      rcases hmiss with hmiss | ⟨md, hlk, hfd⟩
      · rw [hmiss]
        rfl
      · rw [hlk]
        simp [modelDatasets, hfd]
    · rw [List.countP_eq_zero]
      intro d hd
      have := (modelDatasets_not_best hn d hd).1
      simp [isBandSeries, this]
  refine ⟨hbmd, by rw [tableRows, hbmd]; rfl, ?_, ?_, rfl⟩
  · rw [allDatasets, List.countP_append]
    have hh : (historicalDatasets h).countP isBandSeries = 0 := by
      rw [List.countP_eq_zero]
      intro d hd
      have := (historicalDatasets_members d hd).2
      simp [isBandSeries, this]
    have hm : ((sortedModelNames entries).flatMap
        (fun n => modelDatasets best n (lookupModel entries n))).countP isBandSeries = 0 := by
      rw [List.countP_eq_zero]
      intro d hd
      rcases List.mem_flatMap.mp hd with ⟨n, _, hdn⟩
      have := List.countP_eq_zero.mp (hbandless n) d hdn
      simpa using this
    rw [hh, hm]
  · intro htr
    rw [bestModelNote, hbmd]
    simp [htr]

/-- Claim C10, witness: an unbound best name on a small concrete response,
through the amended theorem. -/
theorem best_model_missing_defaults_witness :
    tableRows [("ARIMA", arimaSix)] "ZZZ" = [] ∧
    bestModelNote [("ARIMA", arimaSix)] "ZZZ" =
      .noData "No forecast data available for the best method (ZZZ)." := by
  have h := best_model_missing_defaults [] [("ARIMA", arimaSix)] "ZZZ"
    (Or.inl (by rfl))
  exact ⟨h.2.1, h.2.2.2.1 (by rfl)⟩

/-! ## Claims about the series ordering and confidence bands -/

/-- Claim C6: model names are enumerated in lexicographic order independent
of the response's own ordering — permuting the entries of a
duplicate-free-keys mapping leaves the emitted series list unchanged — and
the input names ETS, ARIMA yield the series order ARIMA, ETS. -/
theorem series_order_lexicographic :
    (∀ (h : List HistPoint) (best : String)
        (entries entries' : List (String × ModelResult)),
        entries.Perm entries' → (entries.map Prod.fst).Nodup →
        renderedSeries (ForecastResults (some ⟨.arr h, .map entries, best⟩)) =
          renderedSeries (ForecastResults (some ⟨.arr h, .map entries', best⟩))) ∧
    (renderedSeries (ForecastResults (some ⟨.arr [],
        .map [("ETS", sampleModel), ("ARIMA", sampleModel)], ""⟩))).map
      (fun d => d.label) = ["ARIMA Forecast", "ETS Forecast"] := by
  constructor
  · intro h best entries entries' hp hnd
    show allDatasets h entries best = allDatasets h entries' best
    rw [allDatasets, allDatasets, sortedModelNames_perm hp]
    congr 1
    congr 1
    funext n
    rw [lookupModel_perm hp n hnd]
  · rfl

/-- Claim C6, witness instantiating the permutation part on a two-entry
mapping given in either order. -/
theorem series_order_lexicographic_witness :
    renderedSeries (ForecastResults (some ⟨.arr [],
        .map [("ETS", sampleModel), ("ARIMA", sampleModel)], ""⟩)) =
      renderedSeries (ForecastResults (some ⟨.arr [],
        .map [("ARIMA", sampleModel), ("ETS", sampleModel)], ""⟩)) :=
  series_order_lexicographic.1 [] ""
    [("ETS", sampleModel), ("ARIMA", sampleModel)]
    [("ARIMA", sampleModel), ("ETS", sampleModel)]
    (List.Perm.swap ("ARIMA", sampleModel) ("ETS", sampleModel) [])
    (by decide)

/-- Claim C1: with model "A" best, usable and non-empty, and model "B"
failed, the series list holds exactly one non-band series for "A", no
series for "B", and exactly two band series — the lower then the upper
bound, adjacent right after "A"'s line — and bands nowhere else. -/
theorem best_model_band_series
    (h : List HistPoint) (entries : List (String × ModelResult))
    (rA rB : ModelResult) (fps : List ForecastPoint)
    (hnd : (entries.map Prod.fst).Nodup)
    (hA : ("A", rA) ∈ entries) (hAfd : rA.forecast_data = some fps)
    (hAne : fps ≠ []) (hAerr : truthyStr rA.error = false)
    (hB : ("B", rB) ∈ entries) (hBerr : truthyStr rB.error = true) :
    renderedSeries (ForecastResults (some ⟨.arr h, .map entries, "A"⟩)) =
      allDatasets h entries "A" ∧
    (allDatasets h entries "A").countP (isForecastSeriesFor "A") = 1 ∧
    (allDatasets h entries "A").countP (mentionsModel "B") = 0 ∧
    (allDatasets h entries "A").countP isBandSeries = 2 ∧
    ∃ pre post,
      allDatasets h entries "A" =
        pre ++ ([bestLineDataset "A" fps, bestLowerDataset "A" fps,
          bestUpperDataset "A" fps] ++ post) ∧
      pre.countP isBandSeries = 0 ∧ post.countP isBandSeries = 0 := by
  obtain ⟨ns1, ns2, hsplit, h1, h2, hsub1, hsub2, hds⟩ :=
    allDatasets_decomp hnd hA hAfd hAerr hAne
  have hside : ∀ n, n ≠ "A" →
      ∀ d ∈ modelDatasets "A" n (lookupModel entries n),
        isForecastSeriesFor "A" d = false ∧ mentionsModel "B" d = false ∧
          isBandSeries d = false := by
    intro n hnA d hd
    by_cases hnB : n = "B"
    · subst hnB
      rw [lookupModel_eq_of_mem hnd hB, modelDatasets_of_error hBerr] at hd
      cases hd
    · obtain ⟨hfill, hlabel⟩ := modelDatasets_not_best hnA d hd
      refine ⟨?_, ?_, ?_⟩
      · rw [isForecastSeriesFor, hfill, hlabel]
        simp only [Option.isSome_none, Bool.not_false, Bool.true_and,
          Bool.or_eq_false_iff, beq_eq_false_iff_ne, ne_eq]
        constructor
        · intro hc
          exact hnA (append_cancel_suffix (hc.trans (by decide)))
        · intro hc
          exact append_ne_append_of_getLast_ne " Forecast" " Forecast (Best)"
            't' ')' (by decide) (by decide) (by decide) n "A"
            (hc.trans (by decide))
      · rw [mentionsModel, hlabel]
        simp only [Bool.or_eq_false_iff, beq_eq_false_iff_ne, ne_eq]
        refine ⟨⟨⟨?_, ?_⟩, ?_⟩, ?_⟩
        · intro hc
          exact hnB (append_cancel_suffix (hc.trans (by decide)))
        · intro hc
          exact append_ne_append_of_getLast_ne " Forecast" " Forecast (Best)"
            't' ')' (by decide) (by decide) (by decide) n "B"
            (hc.trans (by decide))
        · intro hc
          exact append_ne_append_of_getLast_ne " Forecast" " Lower Bound (95% CI)"
            't' ')' (by decide) (by decide) (by decide) n "B"
            (hc.trans (by decide))
        · intro hc
          exact append_ne_append_of_getLast_ne " Forecast" " Upper Bound (95% CI)"
            't' ')' (by decide) (by decide) (by decide) n "B"
            (hc.trans (by decide))
      · rw [isBandSeries, hfill]
        rfl
  have hhist : ∀ d ∈ historicalDatasets h,
      isForecastSeriesFor "A" d = false ∧ mentionsModel "B" d = false ∧
        isBandSeries d = false := by
    intro d hd
    obtain ⟨hlabel, hfill⟩ := historicalDatasets_members d hd
    refine ⟨?_, ?_, ?_⟩
    · rw [isForecastSeriesFor, hfill, hlabel]
      decide
    · rw [mentionsModel, hlabel]
      decide
    · rw [isBandSeries, hfill]
      rfl
  have pLine1 : isForecastSeriesFor "A" (bestLineDataset "A" fps) = true := by
    rw [isForecastSeriesFor]
    show (!(Option.isSome (none : Option Int)) &&
      ("A" ++ " Forecast (Best)" == "A Forecast" ||
        "A" ++ " Forecast (Best)" == "A Forecast (Best)")) = true
    decide
  have pLo1 : isForecastSeriesFor "A" (bestLowerDataset "A" fps) = false := by
    rw [isForecastSeriesFor]
    show (!(Option.isSome (some (1 : Int))) && _) = false
    rfl
  have pUp1 : isForecastSeriesFor "A" (bestUpperDataset "A" fps) = false := by
    rw [isForecastSeriesFor]
    show (!(Option.isSome (some (-1 : Int))) && _) = false
    rfl
  have pLine2 : mentionsModel "B" (bestLineDataset "A" fps) = false := by
    rw [mentionsModel]
    show ("A" ++ " Forecast (Best)" == "B Forecast" ||
      "A" ++ " Forecast (Best)" == "B Forecast (Best)" ||
      "A" ++ " Forecast (Best)" == "B Lower Bound (95% CI)" ||
      "A" ++ " Forecast (Best)" == "B Upper Bound (95% CI)") = false
    decide
  have pLo2 : mentionsModel "B" (bestLowerDataset "A" fps) = false := by
    rw [mentionsModel]
    show ("A" ++ " Lower Bound (95% CI)" == "B Forecast" ||
      "A" ++ " Lower Bound (95% CI)" == "B Forecast (Best)" ||
      "A" ++ " Lower Bound (95% CI)" == "B Lower Bound (95% CI)" ||
      "A" ++ " Lower Bound (95% CI)" == "B Upper Bound (95% CI)") = false
    decide
  have pUp2 : mentionsModel "B" (bestUpperDataset "A" fps) = false := by
    rw [mentionsModel]
    show ("A" ++ " Upper Bound (95% CI)" == "B Forecast" ||
      "A" ++ " Upper Bound (95% CI)" == "B Forecast (Best)" ||
      "A" ++ " Upper Bound (95% CI)" == "B Lower Bound (95% CI)" ||
      "A" ++ " Upper Bound (95% CI)" == "B Upper Bound (95% CI)") = false
    decide
  have pLine3 : isBandSeries (bestLineDataset "A" fps) = false := rfl
  have pLo3 : isBandSeries (bestLowerDataset "A" fps) = true := rfl
  have pUp3 : isBandSeries (bestUpperDataset "A" fps) = true := rfl
  have hzero : ∀ (p : ChartDataset → Bool),
      (∀ d ∈ historicalDatasets h, p d = false) →
      (∀ n, n ≠ "A" → ∀ d ∈ modelDatasets "A" n (lookupModel entries n), p d = false) →
      (historicalDatasets h).countP p = 0 ∧
      (ns1.flatMap (fun n => modelDatasets "A" n (lookupModel entries n))).countP p = 0 ∧
      (ns2.flatMap (fun n => modelDatasets "A" n (lookupModel entries n))).countP p = 0 := by
    intro p hph hpm
    refine ⟨List.countP_eq_zero.mpr (by intro d hd; simp [hph d hd]), ?_, ?_⟩
    · rw [List.countP_eq_zero]
      intro d hd
      rcases List.mem_flatMap.mp hd with ⟨n, hn, hdn⟩
      have hnA : n ≠ "A" := fun hc => h1 (hc ▸ hn)
      simp [hpm n hnA d hdn]
    · rw [List.countP_eq_zero]
      intro d hd
      rcases List.mem_flatMap.mp hd with ⟨n, hn, hdn⟩
      have hnA : n ≠ "A" := fun hc => h2 (hc ▸ hn)
      simp [hpm n hnA d hdn]
  obtain ⟨z11, z12, z13⟩ := hzero (isForecastSeriesFor "A")
    (fun d hd => (hhist d hd).1) (fun n hn d hd => (hside n hn d hd).1)
  obtain ⟨z21, z22, z23⟩ := hzero (mentionsModel "B")
    (fun d hd => (hhist d hd).2.1) (fun n hn d hd => (hside n hn d hd).2.1)
  obtain ⟨z31, z32, z33⟩ := hzero isBandSeries
    (fun d hd => (hhist d hd).2.2) (fun n hn d hd => (hside n hn d hd).2.2)
  refine ⟨rfl, ?_, ?_, ?_, ?_⟩
  · rw [hds]
    simp [List.countP_append, List.countP_cons, z11, z12, z13,
      pLine1, pLo1, pUp1]
  · rw [hds]
    simp [List.countP_append, List.countP_cons, z21, z22, z23,
      pLine2, pLo2, pUp2]
  · rw [hds]
    simp [List.countP_append, List.countP_cons, z31, z32, z33,
      pLine3, pLo3, pUp3]
  · refine ⟨historicalDatasets h ++
      ns1.flatMap (fun n => modelDatasets "A" n (lookupModel entries n)),
      ns2.flatMap (fun n => modelDatasets "A" n (lookupModel entries n)),
      ?_, ?_, z33⟩
    · rw [hds, List.append_assoc]
    · rw [List.countP_append, z31, z32]

/-- Claim C1, witness: a concrete response with best model "A" usable and
model "B" failed, handed to the theorem. -/
theorem best_model_band_series_witness :
    (allDatasets [] [("B", ⟨none, none, some "boom"⟩), ("A", sampleModel)]
      "A").countP isBandSeries = 2 :=
  (best_model_band_series [] [("B", ⟨none, none, some "boom"⟩), ("A", sampleModel)]
    sampleModel ⟨none, none, some "boom"⟩ [⟨"2024-01-01", 1, 0, 2⟩]
    (by decide) (by decide) (by rfl) (by decide) (by rfl)
    (by decide) (by rfl)).2.2.2.1

/-- Claim C7, counterexample: for a concrete best model the series order is
line, then lower bound, then upper bound — the lower-bound series does not
immediately precede the forecast line, and the upper-bound series does not
immediately follow it. -/
theorem band_adjacency_counterexample :
    (renderedSeries (ForecastResults (some ⟨.arr [],
        .map [("A", sampleModel)], "A"⟩))).map (fun d => (d.label, d.fill)) =
      [("A Forecast (Best)", none), ("A Lower Bound (95% CI)", some 1),
        ("A Upper Bound (95% CI)", some (-1))] ∧
    ¬ List.IsInfix ["A Lower Bound (95% CI)", "A Forecast (Best)"]
      ((renderedSeries (ForecastResults (some ⟨.arr [],
        .map [("A", sampleModel)], "A"⟩))).map (fun d => d.label)) ∧
    ¬ List.IsInfix ["A Forecast (Best)", "A Upper Bound (95% CI)"]
      ((renderedSeries (ForecastResults (some ⟨.arr [],
        .map [("A", sampleModel)], "A"⟩))).map (fun d => d.label)) := by
  refine ⟨rfl, ?_, ?_⟩
  · decide
  · decide

/-- Claim C7 (amended): the lower-bound series immediately follows the best
model's forecast line, and the upper-bound series immediately follows the
lower-bound series: the band pair sits adjacent, right after the line it
brackets. -/
theorem band_adjacency (h : List HistPoint)
    (entries : List (String × ModelResult)) (best : String)
    (md : ModelResult) (fps : List ForecastPoint)
    (hnd : (entries.map Prod.fst).Nodup) (hmem : (best, md) ∈ entries)
    (hfd : md.forecast_data = some fps) (herr : truthyStr md.error = false)
    (hne : fps ≠ []) :
    ∃ pre post,
      renderedSeries (ForecastResults (some ⟨.arr h, .map entries, best⟩)) =
        pre ++ ([bestLineDataset best fps, bestLowerDataset best fps,
          bestUpperDataset best fps] ++ post) ∧
      (bestLineDataset best fps).label = best ++ " Forecast (Best)" ∧
      (bestLineDataset best fps).fill = none ∧
      (bestLowerDataset best fps).label = best ++ " Lower Bound (95% CI)" ∧
      (bestLowerDataset best fps).fill = some 1 ∧
      (bestUpperDataset best fps).label = best ++ " Upper Bound (95% CI)" ∧
      (bestUpperDataset best fps).fill = some (-1) := by
  obtain ⟨ns1, ns2, hsplit, h1, h2, hsub1, hsub2, hds⟩ :=
    allDatasets_decomp (h := h) hnd hmem hfd herr hne
  refine ⟨historicalDatasets h ++
      ns1.flatMap (fun n => modelDatasets best n (lookupModel entries n)),
    ns2.flatMap (fun n => modelDatasets best n (lookupModel entries n)),
    ?_, rfl, rfl, rfl, rfl, rfl, rfl⟩
  show allDatasets h entries best = _
  rw [hds, List.append_assoc]

/-- Claim C7, witness: the amended adjacency at a concrete response. -/
theorem band_adjacency_witness :
    ∃ pre post,
      renderedSeries (ForecastResults (some ⟨.arr [],
          .map [("A", sampleModel)], "A"⟩)) =
        pre ++ ([bestLineDataset "A" [⟨"2024-01-01", 1, 0, 2⟩],
          bestLowerDataset "A" [⟨"2024-01-01", 1, 0, 2⟩],
          bestUpperDataset "A" [⟨"2024-01-01", 1, 0, 2⟩]] ++ post) := by
  obtain ⟨pre, post, heq, _⟩ := band_adjacency [] [("A", sampleModel)] "A"
    sampleModel [⟨"2024-01-01", 1, 0, 2⟩] (by decide) (by decide)
    (by rfl) (by rfl) (by decide)
  exact ⟨pre, post, heq⟩

end Forecaster
